import Mathlib

/-!
Verification development for the csc-demo browser data browser (src/js/app.js).

The JavaScript application seeds an IndexedDB database with four collections
(regions, subregions, countries, states) from remote JSON snapshots, serves
navigation queries from that store, and keeps a per-session in-memory city
cache keyed by country ISO2 code.  The definitions below are a shallow
embedding of that code: the IndexedDB database becomes an explicit record
state, network access becomes an oracle from URL to fetch outcome, and the
asynchronous control flow of initializeData and the filter functions becomes
explicit state passing together with a trace of observable events.
-/

namespace CscDemo

/-- Constant DB_NAME from app.js (unused by the logic, kept for fidelity). -/
def DB_NAME : String := "CountryStateCityDB"

/-- Constant DB_VERSION from app.js. -/
def DB_VERSION : Nat := 2

/-- Constant COLLECTIONS from app.js: the fixed seeding order. -/
def COLLECTIONS : List String := ["regions", "subregions", "countries", "states"]

/-- Constant CONTRIBUTIONS_BASE from app.js. -/
def CONTRIBUTIONS_BASE : String :=
  "https://raw.githubusercontent.com/dr5hn/countries-states-cities-database/master/contributions/"

/-- A record of one of the four persistent collections.  The JS records are
dynamic objects; we model the primary key, the display name and the integer
parent-reference fields that the indexes and filter functions of app.js
actually read.  Unused fields default to 0. -/
structure Rec where
  id : Int
  name : String
  region_id : Int := 0
  subregion_id : Int := 0
  country_id : Int := 0
deriving DecidableEq, Repr

/-- A city record as consumed by filterCities: id, name and the state_id
parent field used for in-memory filtering. -/
structure City where
  id : Int
  name : String
  state_id : Int
deriving DecidableEq, Repr

/-- Association-list lookup keyed by strings (first match wins, like a JS
object property read for our purposes). -/
def assocLookup {α : Type} : List (String × α) → String → Option α
  | [], _ => none
  | p :: rest, k => if p.1 = k then some p.2 else assocLookup rest k

/-- The state of the IndexedDB database: its version, the set of object
store names, the set of (store, index) secondary indexes, and the records
held by each store. -/
structure DBState where
  version : Nat
  stores : List String
  indexes : List (String × String)
  data : List (String × List Rec)
deriving DecidableEq, Repr

/-- A freshly deleted or never-created database. -/
def emptyDB : DBState := { version := 0, stores := [], indexes := [], data := [] }

/-- db.objectStoreNames.contains(name). -/
def hasStore (db : DBState) (name : String) : Bool :=
  db.stores.any (fun s => s = name)

/-- The records currently held by a store (empty if the store has no data
entry). -/
def dataOf (db : DBState) (name : String) : List Rec :=
  (assocLookup db.data name).getD []

/-- Replace the contents of one store. -/
def setData (db : DBState) (name : String) (l : List Rec) : DBState :=
  { db with data :=
      if (assocLookup db.data name).isSome then
        db.data.map (fun p => if p.1 = name then (p.1, l) else p)
      else db.data ++ [(name, l)] }

/-- The secondary indexes app.js declares for each collection in the
onupgradeneeded switch. -/
def indexesFor (name : String) : List String :=
  if name = "subregions" then ["region_id"]
  else if name = "countries" then ["subregion_id", "iso2"]
  else if name = "states" then ["country_id", "country_code"]
  else []

/-- One iteration of the COLLECTIONS.forEach body of onupgradeneeded: if the
object store is absent, create it (empty) together with all of its declared
indexes; if it is already present, do nothing - in particular its missing
indexes are not added. -/
def upgradeStep (db : DBState) (name : String) : DBState :=
  if hasStore db name then db
  else
    { db with
      stores := db.stores ++ [name],
      indexes := db.indexes ++ (indexesFor name).map (fun i => (name, i)),
      data := db.data ++ [(name, [])] }

/-- The whole onupgradeneeded handler of openDB. -/
def onUpgradeNeeded (db : DBState) : DBState :=
  COLLECTIONS.foldl upgradeStep db

/-- openDB: the upgrade handler runs exactly when the stored version is
below DB_VERSION; afterwards the connection is at DB_VERSION. -/
def openDB (db : DBState) : DBState :=
  if db.version < DB_VERSION then { onUpgradeNeeded db with version := DB_VERSION }
  else db

/-- getFromIndex(store, index, value): every record whose indexed field
equals the value.  Only the integer-valued indexes are ever queried by the
filter functions of app.js (region_id, subregion_id, country_id); the
string-valued indexes (iso2, country_code) are declared but never queried. -/
def recField (r : Rec) (idx : String) : Int :=
  if idx = "region_id" then r.region_id
  else if idx = "subregion_id" then r.subregion_id
  else if idx = "country_id" then r.country_id
  else 0

/-- Model of getFromIndex. -/
def getFromIndex (db : DBState) (store idx : String) (v : Int) : List Rec :=
  (dataOf db store).filter (fun r => recField r idx = v)

/-- Model of getAllFromStore. -/
def getAllFromStore (db : DBState) (store : String) : List Rec :=
  dataOf db store

/-- Outcome of a fetch of a JSON document: non-success HTTP status,
successful response whose body fails to parse, or a parsed value. -/
inductive Fetched (α : Type) where
  | notOk (status : Nat)
  | okUnparseable
  | ok (data : α)
deriving DecidableEq, Repr

/-- Network oracle for the four collection snapshots. -/
abbrev Net := String → Fetched (List Rec)

/-- Network oracle for the per-country city snapshots. -/
abbrev CNet := String → Fetched (List City)

/-- URL of a collection snapshot, as built in initializeData. -/
def urlFor (name : String) : String :=
  CONTRIBUTIONS_BASE ++ name ++ "/" ++ name ++ ".json"

/-- URL of a city snapshot, as built in filterCities. -/
def cityUrl (code : String) : String :=
  CONTRIBUTIONS_BASE ++ "cities/" ++ code ++ ".json"

/-- The status string passed to updateLoadingProgress at the top of each
seeding iteration. -/
def loadingLabel (name : String) : String := "Loading " ++ name ++ "..."

/-- The message of the error thrown on a non-success snapshot response. -/
def fetchFailMsg (name : String) (status : Nat) : String :=
  "Failed to fetch " ++ name ++ ": " ++ toString status

/-- Stand-in for the message of the JSON parse error response.json() throws
on an unparseable body. -/
def parseErrMsg : String := "Unexpected token in JSON"

/-- Observable events of a run: progress reports to the presentation layer,
count queries, network fetches, committed batch inserts, the immediate
rendering of regions, index queries from the filter functions, and database
deletion. -/
inductive Ev where
  | progress (percent : Nat) (status : String)
  | countQuery (col : String)
  | fetch (url : String)
  | insert (col : String) (n : Nat)
  | renderRegions (rs : List Rec)
  | indexQuery (store idx : String) (v : Int)
  | deleteDB
deriving DecidableEq, Repr

/-- The sequence of store.add calls inside one readwrite transaction.  Each
add fails (aborting the transaction) when its primary key is already present
among the existing records or the records added earlier in the same
transaction; `none` models the aborted (rolled-back) transaction. -/
def addBatch : List Rec → List Rec → Option (List Rec)
  | cur, [] => some cur
  | cur, it :: rest =>
    if cur.any (fun r => r.id = it.id) then none
    else addBatch (cur ++ [it]) rest

/-- How one seeding step ends: normal completion, a thrown error caught by
the try/catch of initializeData, or a hang.  The hang arises because the
code awaits a promise that resolves only on transaction.oncomplete: when a
duplicate key aborts the transaction, oncomplete never fires and the await
never settles. -/
inductive StepOut where
  | ok
  | thrown (msg : String)
  | hung
deriving DecidableEq, Repr

/-- Result of one loop iteration / the whole loop: the database, the emitted
events, and how control left. -/
structure StepRes where
  db : DBState
  evs : List Ev
  out : StepOut
deriving DecidableEq, Repr

/-- The regions special case inside the loop: once the regions step has
settled, getAllFromStore('regions') is rendered immediately. -/
def renderIfRegions (db : DBState) (name : String) : List Ev :=
  if name = "regions" then [Ev.renderRegions (getAllFromStore db "regions")] else []

/-- One iteration of the `for (const collectionName of COLLECTIONS)` body of
initializeData, at current progress value p. -/
def seedStep (net : Net) (db : DBState) (name : String) (p : Nat) : StepRes :=
  if (dataOf db name).length = 0 then
    match net (urlFor name) with
    | Fetched.notOk status =>
        { db := db,
          evs := [Ev.progress p (loadingLabel name), Ev.countQuery name,
                  Ev.fetch (urlFor name)],
          out := StepOut.thrown (fetchFailMsg name status) }
    | Fetched.okUnparseable =>
        { db := db,
          evs := [Ev.progress p (loadingLabel name), Ev.countQuery name,
                  Ev.fetch (urlFor name)],
          out := StepOut.thrown parseErrMsg }
    | Fetched.ok items =>
        match addBatch (dataOf db name) items with
        | none =>
            { db := db,
              evs := [Ev.progress p (loadingLabel name), Ev.countQuery name,
                      Ev.fetch (urlFor name)],
              out := StepOut.hung }
        | some newData =>
            { db := setData db name newData,
              evs := [Ev.progress p (loadingLabel name), Ev.countQuery name,
                      Ev.fetch (urlFor name), Ev.insert name items.length] ++
                     renderIfRegions (setData db name newData) name,
              out := StepOut.ok }
  else
    { db := db,
      evs := [Ev.progress p (loadingLabel name), Ev.countQuery name] ++
             renderIfRegions db name,
      out := StepOut.ok }

/-- progressStep = 100 / COLLECTIONS.length. -/
def progressStep : Nat := 100 / COLLECTIONS.length

/-- The seeding loop over the remaining collections.  A thrown error or a
hang stops the loop; events accumulate in order. -/
def seedLoop (net : Net) (db : DBState) : List String → Nat → StepRes
  | [], _ => { db := db, evs := [], out := StepOut.ok }
  | name :: rest, p =>
    let r := seedStep net db name p
    match r.out with
    | StepOut.ok =>
        let r2 := seedLoop net r.db rest (p + progressStep)
        { db := r2.db, evs := r.evs ++ r2.evs, out := r2.out }
    | o => { db := r.db, evs := r.evs, out := o }

/-- Query-string parsing used by the reset check: split the search string at
each ampersand, split each pair at the first equals sign.  Character-list
based so that every operation is structurally recursive. -/
def splitOnChar (c : Char) : List Char → List (List Char)
  | [] => [[]]
  | x :: xs =>
    let r := splitOnChar c xs
    if x = c then [] :: r
    else
      match r with
      | [] => [[x]]
      | h :: t => (x :: h) :: t

/-- Split one key=value chunk at the first equals sign. -/
def splitKV : List Char → List Char × List Char
  | [] => ([], [])
  | x :: xs =>
    if x = '=' then ([], xs)
    else
      let r := splitKV xs
      (x :: r.1, r.2)

/-- Model of `new URLSearchParams(window.location.search).get(key)`: strips
an optional leading question mark, yields none on the empty string. -/
def getParam (search key : String) : Option String :=
  let s :=
    match search.toList with
    | '?' :: rest => rest
    | other => other
  if s = [] then none
  else
    let pairs := (splitOnChar '&' s).map splitKV
    (pairs.find? (fun pr => pr.1 = key.toList)).map (fun pr => String.mk pr.2)

/-- How a whole initializeData run ends. -/
inductive InitOut where
  | resetReload
  | completed
  | errored (msg : String)
  | hung
deriving DecidableEq, Repr

/-- Result of a whole initializeData run. -/
structure InitRes where
  db : DBState
  search : String
  evs : List Ev
  out : InitOut
deriving DecidableEq, Repr

/-- Model of initializeData: the reset branch deletes the database and
clears the query string; otherwise openDB runs, then the seeding loop, then
either the final 100 percent report or the catch-branch error report. -/
def initializeData (net : Net) (search : String) (db : DBState) : InitRes :=
  if getParam search "reset" = some "true" then
    { db := emptyDB, search := "", evs := [Ev.deleteDB], out := InitOut.resetReload }
  else
    let db1 := openDB db
    let r := seedLoop net db1 COLLECTIONS 0
    match r.out with
    | StepOut.ok =>
        { db := r.db, search := search,
          evs := r.evs ++ [Ev.progress 100 "Complete!"],
          out := InitOut.completed }
    | StepOut.thrown msg =>
        { db := r.db, search := search,
          evs := r.evs ++ [Ev.progress 0 ("Error: " ++ msg)],
          out := InitOut.errored msg }
    | StepOut.hung =>
        { db := r.db, search := search, evs := r.evs, out := InitOut.hung }

/-- Events that are network fetches. -/
def isFetch : Ev → Bool
  | Ev.fetch _ => true
  | _ => false

/-- Events that are committed batch inserts. -/
def isInsert : Ev → Bool
  | Ev.insert _ _ => true
  | _ => false

/-- Number of fetch events in a trace. -/
def countFetch (evs : List Ev) : Nat := (evs.filter isFetch).length

/-- Number of insert events in a trace. -/
def countInsert (evs : List Ev) : Nat := (evs.filter isInsert).length

/-- The suffix of a trace strictly after the first occurrence of an event
(empty if the event never occurs). -/
def afterFirst : List Ev → Ev → List Ev
  | [], _ => []
  | x :: xs, e => if x = e then xs else afterFirst xs e

/-- Substring test, written with the structural splitter so that it kernel
evaluates. -/
def strContainsChars (s sub : List Char) : Bool :=
  match s with
  | [] => sub = []
  | _ :: rest => sub.isPrefixOf s || strContainsChars rest sub

/-- Substring test on strings. -/
def strContains (s sub : String) : Bool :=
  strContainsChars s.toList sub.toList

/-- Does a progress event whose status mentions the given collection name
appear in the trace? -/
def isProgressMentioning (name : String) : Ev → Bool
  | Ev.progress _ s => strContains s name
  | _ => false

-- ---------------------------------------------------------------------------
-- UI-level state: selections, displayed columns, the in-memory city cache.
-- ---------------------------------------------------------------------------

/-- The currentSelections object of app.js. -/
structure Selections where
  region : Option Int
  subregion : Option Int
  country : Option (Int × String)
  state : Option Int
deriving DecidableEq, Repr

/-- What one result column displays: the clearColumn placeholder, a loading
message, the no-results row, the inline error row, or rendered records. -/
inductive ColumnView (α : Type) where
  | emptyState
  | loading
  | noResults
  | errorInline
  | rows (items : List α)
deriving DecidableEq, Repr

/-- The UI-visible state the filter functions manipulate. -/
structure UIState where
  selections : Selections
  subregionsView : ColumnView Rec
  countriesView : ColumnView Rec
  statesView : ColumnView Rec
  citiesView : ColumnView City
  citiesCache : List (String × List City)
  locationSearch : String
deriving DecidableEq, Repr

/-- A JavaScript argument that is either a number or a string (the regionId
parameter of filterSubregions is dispatched on typeof). -/
inductive JSArg where
  | num (n : Int)
  | str (s : String)
deriving DecidableEq, Repr

/-- renderSubregions: empty input shows the no-results row. -/
def renderSubregionsView (subs : List Rec) : ColumnView Rec :=
  if subs = [] then ColumnView.noResults else ColumnView.rows subs

/-- renderCities: empty input shows the no-results row. -/
def renderCitiesView (cs : List City) : ColumnView City :=
  if cs = [] then ColumnView.noResults else ColumnView.rows cs

/-- Model of filterSubregions.  A string-typed argument sets
window.location.search to reset=true and returns without touching the store
or the columns.  A numeric argument records the region selection, queries
the region_id index, renders the result and clears the three dependent
columns - the subregion, country and state fields of currentSelections are
left untouched. -/
def filterSubregions (db : DBState) (st : UIState) (arg : JSArg) : UIState × List Ev :=
  match arg with
  | JSArg.str _ => ({ st with locationSearch := "reset=true" }, [])
  | JSArg.num regionId =>
    let subs := getFromIndex db "subregions" "region_id" regionId
    ({ st with
        selections := { st.selections with region := some regionId },
        subregionsView := renderSubregionsView subs,
        countriesView := ColumnView.emptyState,
        statesView := ColumnView.emptyState,
        citiesView := ColumnView.emptyState },
     [Ev.indexQuery "subregions" "region_id" regionId])

/-- Model of filterCountries: records the subregion selection, queries the
subregion_id index, renders the result and clears the two dependent
columns. -/
def filterCountries (db : DBState) (st : UIState) (subregionId : Int) : UIState × List Ev :=
  let cs := getFromIndex db "countries" "subregion_id" subregionId
  ({ st with
      selections := { st.selections with subregion := some subregionId },
      countriesView := if cs = [] then ColumnView.noResults else ColumnView.rows cs,
      statesView := ColumnView.emptyState,
      citiesView := ColumnView.emptyState },
   [Ev.indexQuery "countries" "subregion_id" subregionId])

/-- How a filterCities call ends: rendered results, or the caught error path
that shows the inline error row. -/
inductive CitiesOut where
  | rendered
  | fetchFailed (msg : String)
deriving DecidableEq, Repr

/-- Result of a filterCities call. -/
structure CitiesRes where
  st : UIState
  evs : List Ev
  out : CitiesOut
deriving DecidableEq, Repr

/-- Model of filterCities: show the loading row, record the state selection,
then either reuse the cached city array for the country code or fetch it;
on a non-success or unparseable response the catch branch shows the inline
error row and the cache is left without the key. -/
def filterCities (cnet : CNet) (st : UIState) (stateId : Int) (code : String) : CitiesRes :=
  let st1 : UIState :=
    { st with citiesView := ColumnView.loading,
              selections := { st.selections with state := some stateId } }
  match assocLookup st1.citiesCache code with
  | some arr =>
      { st := { st1 with
                  citiesView := renderCitiesView (arr.filter (fun c => c.state_id = stateId)) },
        evs := [], out := CitiesOut.rendered }
  | none =>
      match cnet (cityUrl code) with
      | Fetched.notOk status =>
          { st := { st1 with citiesView := ColumnView.errorInline },
            evs := [Ev.fetch (cityUrl code)],
            out := CitiesOut.fetchFailed (fetchFailMsg "cities" status) }
      | Fetched.okUnparseable =>
          { st := { st1 with citiesView := ColumnView.errorInline },
            evs := [Ev.fetch (cityUrl code)],
            out := CitiesOut.fetchFailed parseErrMsg }
      | Fetched.ok data =>
          { st := { st1 with
                      citiesCache := st1.citiesCache ++ [(code, data)],
                      citiesView := renderCitiesView (data.filter (fun c => c.state_id = stateId)) },
            evs := [Ev.fetch (cityUrl code)],
            out := CitiesOut.rendered }

-- ---------------------------------------------------------------------------
-- Concrete instances used by witnesses and counterexamples.
-- ---------------------------------------------------------------------------

/-- A database state left behind by an older schema version: the countries
store exists and holds a record, but none of its declared indexes exist. -/
def legacyV1DB : DBState :=
  { version := 1, stores := ["countries"], indexes := [],
    data := [("countries", [{ id := 1, name := "India" }])] }

/-- Sample records for the four collections. -/
def asiaRec : Rec := { id := 1, name := "Asia" }

/-- Sample subregion record. -/
def southernAsiaRec : Rec := { id := 10, name := "Southern Asia", region_id := 1 }

/-- Sample country record. -/
def indiaRec : Rec := { id := 20, name := "India", subregion_id := 10 }

/-- Sample state record. -/
def goaRec : Rec := { id := 30, name := "Goa", country_id := 20 }

/-- A network oracle on which every request fails with HTTP 500. -/
def net500 : Net := fun _ => Fetched.notOk 500

/-- A network oracle serving one record per collection snapshot. -/
def netSeedOk : Net := fun url =>
  if url = urlFor "regions" then Fetched.ok [asiaRec]
  else if url = urlFor "subregions" then Fetched.ok [southernAsiaRec]
  else if url = urlFor "countries" then Fetched.ok [indiaRec]
  else if url = urlFor "states" then Fetched.ok [goaRec]
  else Fetched.notOk 404

/-- A network oracle whose regions snapshot holds two records with the same
primary key. -/
def netDupRegions : Net := fun url =>
  if url = urlFor "regions" then
    Fetched.ok [{ id := 1, name := "Asia" }, { id := 1, name := "Asia bis" }]
  else Fetched.notOk 404

/-- A fully seeded database at the current schema version. -/
def seededDB : DBState :=
  { version := 2, stores := COLLECTIONS,
    indexes := [("subregions", "region_id"), ("countries", "subregion_id"),
                ("countries", "iso2"), ("states", "country_id"),
                ("states", "country_code")],
    data := [("regions", [asiaRec]), ("subregions", [southernAsiaRec]),
             ("countries", [indiaRec]), ("states", [goaRec])] }

/-- A database where regions and subregions are seeded but countries and
states are still empty (the state a run aborted at countries leaves). -/
def halfSeededDB : DBState :=
  { version := 2, stores := COLLECTIONS,
    indexes := [("subregions", "region_id"), ("countries", "subregion_id"),
                ("countries", "iso2"), ("states", "country_id"),
                ("states", "country_code")],
    data := [("regions", [asiaRec]), ("subregions", [southernAsiaRec]),
             ("countries", []), ("states", [])] }

/-- Sample city records from Scenario C of the specification. -/
def mumbai : City := { id := 1, name := "Mumbai", state_id := 100 }

/-- Second sample city record. -/
def pune : City := { id := 2, name := "Pune", state_id := 200 }

/-- A city network oracle serving the Scenario C snapshot for IN. -/
def cnetIN : CNet := fun url =>
  if url = cityUrl "IN" then Fetched.ok [mumbai, pune] else Fetched.notOk 404

/-- A city network oracle on which every request fails with HTTP 500. -/
def cnet500 : CNet := fun _ => Fetched.notOk 500

/-- The UI state right after startup: nothing selected, nothing cached. -/
def uiInit : UIState :=
  { selections := { region := none, subregion := none, country := none, state := none },
    subregionsView := ColumnView.emptyState,
    countriesView := ColumnView.emptyState,
    statesView := ColumnView.emptyState,
    citiesView := ColumnView.emptyState,
    citiesCache := [],
    locationSearch := "" }

/-- A UI state in which a subregion, a country and a state are selected. -/
def uiDrilled : UIState :=
  { uiInit with
      selections := { region := some 1, subregion := some 10,
                      country := some (20, "IN"), state := some 30 } }

/-- A UI state whose city cache already holds the IN array. -/
def uiCachedIN : UIState :=
  { uiInit with citiesCache := [("IN", [mumbai, pune])] }

-- ---------------------------------------------------------------------------
-- Association-list and store-state lemmas.
-- ---------------------------------------------------------------------------

theorem assocLookup_append_of_none {α : Type} (l1 l2 : List (String × α)) (k : String)
    (h : assocLookup l1 k = none) : assocLookup (l1 ++ l2) k = assocLookup l2 k := by
  induction l1 with
  | nil => rfl
  | cons p rest ih =>
    by_cases hp : p.1 = k
    · simp [assocLookup, hp] at h
    · simp only [assocLookup, hp, if_false, List.cons_append] at h ⊢
      exact ih h

theorem assocLookup_append_of_some {α : Type} (l1 l2 : List (String × α)) (k : String)
    (v : α) (h : assocLookup l1 k = some v) : assocLookup (l1 ++ l2) k = some v := by
  induction l1 with
  | nil => simp [assocLookup] at h
  | cons p rest ih =>
    by_cases hp : p.1 = k
    · simp only [assocLookup, hp, if_true, List.cons_append] at h ⊢
      exact h
    · simp only [assocLookup, hp, if_false, List.cons_append] at h ⊢
      exact ih h

theorem assocLookup_mapReplace (l : List (String × List Rec)) (name : String)
    (v : List Rec) :
    assocLookup (l.map (fun p => if p.1 = name then (p.1, v) else p)) name =
      if (assocLookup l name).isSome then some v else none := by
  induction l with
  | nil => rfl
  | cons p rest ih =>
    by_cases hp : p.1 = name
    · simp [assocLookup, hp]
    · simp [assocLookup, hp, ih]

theorem dataOf_setData_self (db : DBState) (name : String) (l : List Rec) :
    dataOf (setData db name l) name = l := by
  unfold setData dataOf
  by_cases h : (assocLookup db.data name).isSome
  · simp [h, assocLookup_mapReplace]
  · rw [if_neg h]
    have hn : assocLookup db.data name = none := by
      cases hx : assocLookup db.data name with
      | none => rfl
      | some v => rw [hx] at h; simp at h
    simp [assocLookup_append_of_none _ _ _ hn, assocLookup]

-- ---------------------------------------------------------------------------
-- Schema migration lemmas (claim C2).
-- ---------------------------------------------------------------------------

theorem upgradeStep_pos (db : DBState) (n : String) (h : hasStore db n = true) :
    upgradeStep db n = db := by
  unfold upgradeStep
  rw [if_pos h]

theorem upgradeStep_neg (db : DBState) (n : String) (h : hasStore db n = false) :
    upgradeStep db n =
      { db with
        stores := db.stores ++ [n],
        indexes := db.indexes ++ (indexesFor n).map (fun i => (n, i)),
        data := db.data ++ [(n, [])] } := by
  unfold upgradeStep
  rw [if_neg (by simp [h])]

theorem hasStore_upgradeStep (db : DBState) (n c : String)
    (h : hasStore db c = true) : hasStore (upgradeStep db n) c = true := by
  cases hn : hasStore db n with
  | true => rw [upgradeStep_pos db n hn]; exact h
  | false =>
    rw [upgradeStep_neg db n hn]
    simp only [hasStore] at h ⊢
    simp [List.any_append, h]

theorem hasStore_foldl_of (l : List String) :
    ∀ (db : DBState) (c : String), hasStore db c = true →
      hasStore (List.foldl upgradeStep db l) c = true := by
  induction l with
  | nil => intro db c h; simpa using h
  | cons n rest ih =>
    intro db c h
    exact ih (upgradeStep db n) c (hasStore_upgradeStep db n c h)

theorem hasStore_upgradeStep_self (db : DBState) (n : String) :
    hasStore (upgradeStep db n) n = true := by
  cases hn : hasStore db n with
  | true => rw [upgradeStep_pos db n hn]; exact hn
  | false =>
    rw [upgradeStep_neg db n hn]
    simp only [hasStore]
    simp [List.any_append]

theorem hasStore_foldl_mem (l : List String) :
    ∀ (db : DBState) (c : String), c ∈ l →
      hasStore (List.foldl upgradeStep db l) c = true := by
  induction l with
  | nil => intro db c h; exact absurd h (List.not_mem_nil c)
  | cons n rest ih =>
    intro db c hc
    rcases List.mem_cons.mp hc with h | h
    · subst h
      exact hasStore_foldl_of rest (upgradeStep db c) c (hasStore_upgradeStep_self db c)
    · exact ih (upgradeStep db n) c h

theorem upgradeStep_of_hasStore (db : DBState) (n : String)
    (h : hasStore db n = true) : upgradeStep db n = db := by
  unfold upgradeStep
  rw [if_pos h]

theorem foldl_upgradeStep_id (l : List String) :
    ∀ (db : DBState), (∀ c ∈ l, hasStore db c = true) →
      List.foldl upgradeStep db l = db := by
  induction l with
  | nil => intro db _; rfl
  | cons n rest ih =>
    intro db h
    have hn := h n (List.mem_cons_self n rest)
    rw [List.foldl_cons, upgradeStep_of_hasStore db n hn]
    exact ih db (fun c hc => h c (List.mem_cons_of_mem n hc))

theorem dataOf_upgradeStep (db : DBState) (n s : String) :
    dataOf (upgradeStep db n) s = dataOf db s := by
  cases hn : hasStore db n with
  | true => rw [upgradeStep_pos db n hn]
  | false =>
    rw [upgradeStep_neg db n hn]
    unfold dataOf
    cases h : assocLookup db.data s with
    | some v => simp [assocLookup_append_of_some _ _ _ _ h, h]
    | none =>
      rw [show ({ db with
            stores := db.stores ++ [n],
            indexes := db.indexes ++ (indexesFor n).map (fun i => (n, i)),
            data := db.data ++ [(n, [])] } : DBState).data = db.data ++ [(n, [])] from rfl]
      rw [assocLookup_append_of_none _ _ _ h]
      by_cases hns : n = s <;> simp [assocLookup, hns]

theorem dataOf_foldl_upgradeStep (l : List String) :
    ∀ (db : DBState) (s : String),
      dataOf (List.foldl upgradeStep db l) s = dataOf db s := by
  induction l with
  | nil => intro db s; rfl
  | cons n rest ih =>
    intro db s
    rw [List.foldl_cons, ih (upgradeStep db n) s, dataOf_upgradeStep]

theorem mem_indexes_upgradeStep (db : DBState) (n : String) (pr : String × String)
    (h : pr ∈ db.indexes) : pr ∈ (upgradeStep db n).indexes := by
  cases hn : hasStore db n with
  | true => rw [upgradeStep_pos db n hn]; exact h
  | false =>
    rw [upgradeStep_neg db n hn]
    exact List.mem_append_left _ h

theorem mem_indexes_foldl (l : List String) :
    ∀ (db : DBState) (pr : String × String), pr ∈ db.indexes →
      pr ∈ (List.foldl upgradeStep db l).indexes := by
  induction l with
  | nil => intro db pr h; simpa using h
  | cons n rest ih =>
    intro db pr h
    exact ih (upgradeStep db n) pr (mem_indexes_upgradeStep db n pr h)

theorem hasStore_upgradeStep_other (db : DBState) (n c : String) (hne : n ≠ c) :
    hasStore (upgradeStep db n) c = hasStore db c := by
  cases hn : hasStore db n with
  | true => rw [upgradeStep_pos db n hn]
  | false =>
    rw [upgradeStep_neg db n hn]
    simp only [hasStore]
    simp [List.any_append, hne]

theorem foldl_creates_indexes (l : List String) :
    ∀ (db : DBState) (c : String), c ∈ l → hasStore db c = false →
      ∀ idx ∈ indexesFor c, (c, idx) ∈ (List.foldl upgradeStep db l).indexes := by
  induction l with
  | nil => intro db c hc; exact absurd hc (List.not_mem_nil c)
  | cons n rest ih =>
    intro db c hc hno idx hidx
    by_cases hnc : n = c
    · subst hnc
      have h1 : (n, idx) ∈ (upgradeStep db n).indexes := by
        rw [upgradeStep_neg db n hno]
        exact List.mem_append_right _ (List.mem_map_of_mem _ hidx)
      exact mem_indexes_foldl rest (upgradeStep db n) (n, idx) h1
    · rcases List.mem_cons.mp hc with h | h
      · exact absurd h.symm hnc
      · have hstill : hasStore (upgradeStep db n) c = false := by
          rw [hasStore_upgradeStep_other db n c hnc]; exact hno
        exact ih (upgradeStep db n) c h hstill idx hidx

/-- Claim C2 counterexample: on a partially-initialized store in which the
countries collection already exists but its declared iso2 index does not,
the migration step leaves the iso2 index uncreated, because indexes are only
created inside the branch that creates a missing object store. -/
theorem C2_counterexample :
    "iso2" ∈ indexesFor "countries" ∧
    hasStore legacyV1DB "countries" = true ∧
    ("countries", "iso2") ∉ (onUpgradeNeeded legacyV1DB).indexes := by
  decide

/-- Claim C2 (amended): the migration step is additive and idempotent - after
it every one of the four collections exists, existing records are never
rewritten, existing indexes are kept, and for a collection that did not yet
exist all of its declared indexes are created.  A declared index missing
from an already-existing collection is, however, not added. -/
theorem C2_migration_amended (db : DBState) :
    (∀ c ∈ COLLECTIONS, hasStore (onUpgradeNeeded db) c = true) ∧
    onUpgradeNeeded (onUpgradeNeeded db) = onUpgradeNeeded db ∧
    (∀ s, dataOf (onUpgradeNeeded db) s = dataOf db s) ∧
    (∀ pr ∈ db.indexes, pr ∈ (onUpgradeNeeded db).indexes) ∧
    (∀ c ∈ COLLECTIONS, hasStore db c = false →
      ∀ idx ∈ indexesFor c, (c, idx) ∈ (onUpgradeNeeded db).indexes) := by
  refine ⟨?_, ?_, ?_, ?_, ?_⟩
  · intro c hc
    exact hasStore_foldl_mem COLLECTIONS db c hc
  · exact foldl_upgradeStep_id COLLECTIONS (onUpgradeNeeded db)
      (fun c hc => hasStore_foldl_mem COLLECTIONS db c hc)
  · intro s
    exact dataOf_foldl_upgradeStep COLLECTIONS db s
  · intro pr h
    exact mem_indexes_foldl COLLECTIONS db pr h
  · intro c hc hno idx hidx
    exact foldl_creates_indexes COLLECTIONS db c hc hno idx hidx

/-- Witness for C2: instantiating the amended migration theorem on the empty
store shows the states collection and its country_code index get created. -/
theorem C2_migration_witness :
    hasStore (onUpgradeNeeded emptyDB) "states" = true ∧
    ("states", "country_code") ∈ (onUpgradeNeeded emptyDB).indexes :=
  ⟨(C2_migration_amended emptyDB).1 "states" (by decide),
   (C2_migration_amended emptyDB).2.2.2.2 "states" (by decide) (by decide)
     "country_code" (by decide)⟩

-- ---------------------------------------------------------------------------
-- Seeding-step lemmas.
-- ---------------------------------------------------------------------------

theorem seedStep_skip (net : Net) (db : DBState) (name : String) (p : Nat)
    (h : (dataOf db name).length ≠ 0) :
    seedStep net db name p =
      { db := db,
        evs := [Ev.progress p (loadingLabel name), Ev.countQuery name] ++
               renderIfRegions db name,
        out := StepOut.ok } := by
  unfold seedStep
  rw [if_neg h]

theorem seedStep_fetch_fail (net : Net) (db : DBState) (name : String) (p status : Nat)
    (h0 : (dataOf db name).length = 0)
    (h1 : net (urlFor name) = Fetched.notOk status) :
    seedStep net db name p =
      { db := db,
        evs := [Ev.progress p (loadingLabel name), Ev.countQuery name,
                Ev.fetch (urlFor name)],
        out := StepOut.thrown (fetchFailMsg name status) } := by
  unfold seedStep
  rw [if_pos h0, h1]

theorem seedStep_fetch_ok (net : Net) (db : DBState) (name : String) (p : Nat)
    (items newData : List Rec)
    (h0 : (dataOf db name).length = 0)
    (h1 : net (urlFor name) = Fetched.ok items)
    (h2 : addBatch (dataOf db name) items = some newData) :
    seedStep net db name p =
      { db := setData db name newData,
        evs := [Ev.progress p (loadingLabel name), Ev.countQuery name,
                Ev.fetch (urlFor name), Ev.insert name items.length] ++
               renderIfRegions (setData db name newData) name,
        out := StepOut.ok } := by
  unfold seedStep
  rw [if_pos h0, h1]
  simp only [h2]

theorem seedStep_dup_hang (net : Net) (db : DBState) (name : String) (p : Nat)
    (items : List Rec)
    (h0 : (dataOf db name).length = 0)
    (h1 : net (urlFor name) = Fetched.ok items)
    (h2 : addBatch (dataOf db name) items = none) :
    seedStep net db name p =
      { db := db,
        evs := [Ev.progress p (loadingLabel name), Ev.countQuery name,
                Ev.fetch (urlFor name)],
        out := StepOut.hung } := by
  unfold seedStep
  rw [if_pos h0, h1]
  simp only [h2]

theorem addBatch_nodup : ∀ (items cur : List Rec),
    ((cur ++ items).map Rec.id).Nodup → addBatch cur items = some (cur ++ items) := by
  intro items
  induction items with
  | nil => intro cur _; simp [addBatch]
  | cons it rest ih =>
    intro cur h
    have hids : (cur.map Rec.id ++ it.id :: rest.map Rec.id).Nodup := by
      simpa using h
    have hnotin : it.id ∉ cur.map Rec.id := by
      rcases List.nodup_append.mp hids with ⟨_, _, hdisj⟩
      intro hmem
      exact hdisj hmem (List.mem_cons_self _ _)
    have hany : cur.any (fun r => r.id = it.id) = false := by
      rw [List.any_eq_false]
      intro r hr
      simp only [decide_eq_true_eq]
      intro he
      exact hnotin (he ▸ List.mem_map_of_mem Rec.id hr)
    unfold addBatch
    rw [hany]
    have harr : ((cur ++ [it]) ++ rest).map Rec.id = (cur ++ it :: rest).map Rec.id := by
      rw [List.append_assoc]
      rfl
    have := ih (cur ++ [it]) (by rw [harr]; exact h)
    rw [this]
    simp

theorem countFetch_append (l1 l2 : List Ev) :
    countFetch (l1 ++ l2) = countFetch l1 + countFetch l2 := by
  simp [countFetch, List.filter_append]

theorem countInsert_append (l1 l2 : List Ev) :
    countInsert (l1 ++ l2) = countInsert l1 + countInsert l2 := by
  simp [countInsert, List.filter_append]

theorem filter_isFetch_renderIfRegions (db : DBState) (name : String) :
    List.filter isFetch (renderIfRegions db name) = [] := by
  unfold renderIfRegions
  split <;> rfl

theorem filter_isInsert_renderIfRegions (db : DBState) (name : String) :
    List.filter isInsert (renderIfRegions db name) = [] := by
  unfold renderIfRegions
  split <;> rfl

theorem countFetch_renderIfRegions (db : DBState) (name : String) :
    countFetch (renderIfRegions db name) = 0 := by
  unfold countFetch
  rw [filter_isFetch_renderIfRegions]
  rfl

theorem countInsert_renderIfRegions (db : DBState) (name : String) :
    countInsert (renderIfRegions db name) = 0 := by
  unfold countInsert
  rw [filter_isInsert_renderIfRegions]
  rfl

/-- Claim C4 (seed-once): starting from an empty collection, with a snapshot
that parses to a nonempty batch of distinct primary keys, running the
seeding step twice performs exactly one fetch and exactly one committed
batch insert in total; the second run sees a non-zero count, performs no
fetch and no insert, and leaves the database unchanged. -/
theorem C4_seed_once (net : Net) (db : DBState) (name : String) (p q : Nat)
    (items : List Rec)
    (h0 : (dataOf db name).length = 0)
    (h1 : net (urlFor name) = Fetched.ok items)
    (h2 : items ≠ [])
    (h3 : (items.map Rec.id).Nodup) :
    (seedStep net db name p).out = StepOut.ok ∧
    countFetch ((seedStep net db name p).evs ++
      (seedStep net (seedStep net db name p).db name q).evs) = 1 ∧
    countInsert ((seedStep net db name p).evs ++
      (seedStep net (seedStep net db name p).db name q).evs) = 1 ∧
    (dataOf (seedStep net db name p).db name).length ≠ 0 ∧
    countFetch (seedStep net (seedStep net db name p).db name q).evs = 0 ∧
    countInsert (seedStep net (seedStep net db name p).db name q).evs = 0 ∧
    (seedStep net (seedStep net db name p).db name q).db =
      (seedStep net db name p).db := by
  have hempty : dataOf db name = [] := List.length_eq_zero.mp h0
  have hbatch : addBatch (dataOf db name) items = some items := by
    rw [hempty]
    have hb := addBatch_nodup items [] (by simpa using h3)
    simpa using hb
  have hstep1 := seedStep_fetch_ok net db name p items items h0 h1 hbatch
  have hdata : dataOf (seedStep net db name p).db name = items := by
    rw [hstep1]
    exact dataOf_setData_self db name items
  have hlen : (dataOf (seedStep net db name p).db name).length ≠ 0 := by
    rw [hdata]
    simpa [List.length_eq_zero] using h2
  have hstep2 := seedStep_skip net (seedStep net db name p).db name q hlen
  refine ⟨by rw [hstep1], ?_, ?_, hlen, ?_, ?_, by rw [hstep2]⟩
  · rw [countFetch_append, hstep2, hstep1]
    simp [countFetch, List.filter_append, filter_isFetch_renderIfRegions,
      List.filter, isFetch]
  · rw [countInsert_append, hstep2, hstep1]
    simp [countInsert, List.filter_append, filter_isInsert_renderIfRegions,
      List.filter, isInsert]
  · rw [hstep2]
    simp [countFetch, List.filter_append, filter_isFetch_renderIfRegions,
      List.filter, isFetch]
  · rw [hstep2]
    simp [countInsert, List.filter_append, filter_isInsert_renderIfRegions,
      List.filter, isInsert]

/-- Witness for C4: the seed-once theorem applied to the subregions
collection with the one-record snapshot oracle. -/
theorem C4_seed_once_witness :
    (seedStep netSeedOk halfSeededDB "countries" 50).out = StepOut.ok ∧
    countFetch ((seedStep netSeedOk halfSeededDB "countries" 50).evs ++
      (seedStep netSeedOk (seedStep netSeedOk halfSeededDB "countries" 50).db
        "countries" 50).evs) = 1 ∧
    countInsert ((seedStep netSeedOk halfSeededDB "countries" 50).evs ++
      (seedStep netSeedOk (seedStep netSeedOk halfSeededDB "countries" 50).db
        "countries" 50).evs) = 1 ∧
    (dataOf (seedStep netSeedOk halfSeededDB "countries" 50).db "countries").length ≠ 0 ∧
    countFetch (seedStep netSeedOk (seedStep netSeedOk halfSeededDB "countries" 50).db
      "countries" 50).evs = 0 ∧
    countInsert (seedStep netSeedOk (seedStep netSeedOk halfSeededDB "countries" 50).db
      "countries" 50).evs = 0 ∧
    (seedStep netSeedOk (seedStep netSeedOk halfSeededDB "countries" 50).db
      "countries" 50).db = (seedStep netSeedOk halfSeededDB "countries" 50).db :=
  C4_seed_once netSeedOk halfSeededDB "countries" 50 50 [indiaRec]
    (by decide) (by decide) (by decide) (by decide)

/-- Claim C1 counterexample: in a run in which the fetch of
countries/countries.json returns HTTP 500 and seeding aborts naming
countries, count on subregions IS queried - the subregions step precedes the
countries step in the fixed seeding order, so the claim that it is never
queried in such a run is false. -/
theorem C1_counterexample :
    net500 (urlFor "countries") = Fetched.notOk 500 ∧
    (initializeData net500 "" halfSeededDB).out =
      InitOut.errored (fetchFailMsg "countries" 500) ∧
    Ev.countQuery "subregions" ∈ (initializeData net500 "" halfSeededDB).evs := by
  refine ⟨rfl, ?_, ?_⟩ <;> decide

/-- Claim C1 (amended): when the countries snapshot fetch returns a
non-success status in a run that reaches the countries step with an empty
countries collection, seeding aborts with an error naming countries, the
error is surfaced through the progress callback, and neither a count query
nor a fetch for states (the collection after countries) happens; the count
query on subregions does happen, because subregions precedes countries in
the fixed seeding order. -/
theorem C1_fetch_fail_amended (net : Net) (db : DBState) (status : Nat)
    (h1 : (dataOf (openDB db) "regions").length ≠ 0)
    (h2 : (dataOf (openDB db) "subregions").length ≠ 0)
    (h3 : (dataOf (openDB db) "countries").length = 0)
    (h4 : net (urlFor "countries") = Fetched.notOk status) :
    (initializeData net "" db).out = InitOut.errored (fetchFailMsg "countries" status) ∧
    Ev.progress 0 ("Error: " ++ fetchFailMsg "countries" status) ∈
      (initializeData net "" db).evs ∧
    Ev.countQuery "subregions" ∈ (initializeData net "" db).evs ∧
    Ev.countQuery "states" ∉ (initializeData net "" db).evs ∧
    Ev.fetch (urlFor "states") ∉ (initializeData net "" db).evs := by
  have hreset : ¬(getParam "" "reset" = some "true") := by decide
  have s1 := seedStep_skip net (openDB db) "regions" 0 h1
  have s2 := seedStep_skip net (openDB db) "subregions" (0 + progressStep) h2
  have s3 := seedStep_fetch_fail net (openDB db) "countries"
    (0 + progressStep + progressStep) status h3 h4
  unfold initializeData
  rw [if_neg hreset]
  simp only [COLLECTIONS, seedLoop, s1, s2, s3]
  simp only [renderIfRegions]
  simp [List.mem_append, loadingLabel, urlFor, CONTRIBUTIONS_BASE]

/-- Witness for C1: the amended theorem instantiated on the half-seeded
database and the all-500 network oracle. -/
theorem C1_fetch_fail_witness :
    (initializeData net500 "" halfSeededDB).out =
      InitOut.errored (fetchFailMsg "countries" 500) ∧
    Ev.progress 0 ("Error: " ++ fetchFailMsg "countries" 500) ∈
      (initializeData net500 "" halfSeededDB).evs ∧
    Ev.countQuery "subregions" ∈ (initializeData net500 "" halfSeededDB).evs ∧
    Ev.countQuery "states" ∉ (initializeData net500 "" halfSeededDB).evs ∧
    Ev.fetch (urlFor "states") ∉ (initializeData net500 "" halfSeededDB).evs :=
  C1_fetch_fail_amended net500 halfSeededDB 500
    (by decide) (by decide) (by decide) rfl

/-- Claim C3: a duplicate primary key inside the seeding batch insert makes
the readwrite transaction abort, so the batch is rolled back - but the code
awaits a promise that only transaction.oncomplete resolves, so the await
never settles: the run hangs, no error event is reported, and the condition
is never surfaced to the user, contradicting the specification.  Evaluated
on a fresh store whose regions snapshot holds two records with id 1. -/
theorem C3_duplicate_key_hangs :
    (initializeData netDupRegions "" emptyDB).out = InitOut.hung ∧
    dataOf (initializeData netDupRegions "" emptyDB).db "regions" = [] ∧
    Ev.insert "regions" 2 ∉ (initializeData netDupRegions "" emptyDB).evs ∧
    (initializeData netDupRegions "" emptyDB).evs.all
      (fun e => !(isProgressMentioning "Error" e)) = true := by
  refine ⟨?_, ?_, ?_, ?_⟩ <;> decide

/-- Claim C5 counterexample: in a concrete completed seeding run, after the
countries step settles (its count query has happened) no progress report
mentioning countries is ever delivered, and likewise for states: the report
carrying a collection's name is issued before its step, not after it
settles. -/
theorem C5_counterexample :
    (initializeData net500 "" seededDB).out = InitOut.completed ∧
    Ev.countQuery "countries" ∈ (initializeData net500 "" seededDB).evs ∧
    (afterFirst (initializeData net500 "" seededDB).evs
      (Ev.countQuery "countries")).any (isProgressMentioning "countries") = false ∧
    Ev.countQuery "states" ∈ (initializeData net500 "" seededDB).evs ∧
    (afterFirst (initializeData net500 "" seededDB).evs
      (Ev.countQuery "states")).any (isProgressMentioning "states") = false := by
  refine ⟨?_, ?_, ?_, ?_, ?_⟩ <;> decide

/-- Claim C5 (amended): during a seeding run each collection's progress
report (the fraction of collections already settled, plus that collection's
name) is delivered immediately before that collection's step, in both the
already-present case (first conjunct, any database with all four collections
non-empty) and the fetched case (second conjunct, a fresh store seeded over
the network); after the last collection settles a final 100 percent report
is delivered. -/
theorem C5_progress_amended :
    (∀ (net : Net) (db : DBState),
      (dataOf (openDB db) "regions").length ≠ 0 →
      (dataOf (openDB db) "subregions").length ≠ 0 →
      (dataOf (openDB db) "countries").length ≠ 0 →
      (dataOf (openDB db) "states").length ≠ 0 →
      (Ev.countQuery "regions" ∈
        afterFirst (initializeData net "" db).evs
          (Ev.progress 0 (loadingLabel "regions")) ∧
       Ev.countQuery "subregions" ∈
        afterFirst (initializeData net "" db).evs
          (Ev.progress 25 (loadingLabel "subregions")) ∧
       Ev.countQuery "countries" ∈
        afterFirst (initializeData net "" db).evs
          (Ev.progress 50 (loadingLabel "countries")) ∧
       Ev.countQuery "states" ∈
        afterFirst (initializeData net "" db).evs
          (Ev.progress 75 (loadingLabel "states")) ∧
       Ev.progress 100 "Complete!" ∈ (initializeData net "" db).evs)) ∧
    (Ev.countQuery "regions" ∈
      afterFirst (initializeData netSeedOk "" emptyDB).evs
        (Ev.progress 0 (loadingLabel "regions")) ∧
     Ev.countQuery "subregions" ∈
      afterFirst (initializeData netSeedOk "" emptyDB).evs
        (Ev.progress 25 (loadingLabel "subregions")) ∧
     Ev.countQuery "countries" ∈
      afterFirst (initializeData netSeedOk "" emptyDB).evs
        (Ev.progress 50 (loadingLabel "countries")) ∧
     Ev.countQuery "states" ∈
      afterFirst (initializeData netSeedOk "" emptyDB).evs
        (Ev.progress 75 (loadingLabel "states")) ∧
     Ev.progress 100 "Complete!" ∈ (initializeData netSeedOk "" emptyDB).evs) := by
  constructor
  · intro net db h1 h2 h3 h4
    have hreset : ¬(getParam "" "reset" = some "true") := by decide
    have s1 := seedStep_skip net (openDB db) "regions" 0 h1
    have s2 := seedStep_skip net (openDB db) "subregions" (0 + progressStep) h2
    have s3 := seedStep_skip net (openDB db) "countries"
      (0 + progressStep + progressStep) h3
    have s4 := seedStep_skip net (openDB db) "states"
      (0 + progressStep + progressStep + progressStep) h4
    unfold initializeData
    rw [if_neg hreset]
    simp only [COLLECTIONS, seedLoop, s1, s2, s3, s4, renderIfRegions]
    simp [afterFirst, loadingLabel, progressStep, COLLECTIONS]
  · refine ⟨?_, ?_, ?_, ?_, ?_⟩ <;> decide

/-- Witness for C5: the amended theorem instantiated on the fully seeded
database and the all-500 oracle (a run that touches no network). -/
theorem C5_progress_witness :
    Ev.countQuery "states" ∈
      afterFirst (initializeData net500 "" seededDB).evs
        (Ev.progress 75 (loadingLabel "states")) :=
  ((C5_progress_amended.1 net500 seededDB
    (by decide) (by decide) (by decide) (by decide)).2.2.2.1)

/-- Claim C6 counterexample: selecting a region does not clear the
subregion, country and state selections - starting from a fully drilled-in
UI state, after filterSubregions with region 5 the three downstream
selection fields still hold their old values instead of being cleared. -/
theorem C6_counterexample :
    (filterSubregions emptyDB uiDrilled (JSArg.num 5)).1.selections.subregion = some 10 ∧
    (filterSubregions emptyDB uiDrilled (JSArg.num 5)).1.selections.subregion ≠ none ∧
    (filterSubregions emptyDB uiDrilled (JSArg.num 5)).1.selections.country = some (20, "IN") ∧
    (filterSubregions emptyDB uiDrilled (JSArg.num 5)).1.selections.state = some 30 := by
  refine ⟨?_, ?_, ?_, ?_⟩ <;> decide

/-- Claim C6 (amended): a region selection narrows the display top-down: the
countries, states and cities result columns are cleared, the subregions
column is re-rendered from the region_id index query, and the region
selection is recorded; the subregion, country and state selection fields
are, however, left unchanged rather than cleared. -/
theorem C6_region_select_amended (db : DBState) (st : UIState) (rid : Int) :
    (filterSubregions db st (JSArg.num rid)).1.countriesView = ColumnView.emptyState ∧
    (filterSubregions db st (JSArg.num rid)).1.statesView = ColumnView.emptyState ∧
    (filterSubregions db st (JSArg.num rid)).1.citiesView = ColumnView.emptyState ∧
    (filterSubregions db st (JSArg.num rid)).1.subregionsView =
      renderSubregionsView (getFromIndex db "subregions" "region_id" rid) ∧
    (filterSubregions db st (JSArg.num rid)).1.selections.region = some rid ∧
    (filterSubregions db st (JSArg.num rid)).1.selections.subregion =
      st.selections.subregion ∧
    (filterSubregions db st (JSArg.num rid)).1.selections.country =
      st.selections.country ∧
    (filterSubregions db st (JSArg.num rid)).1.selections.state =
      st.selections.state :=
  ⟨rfl, rfl, rfl, rfl, rfl, rfl, rfl, rfl⟩

/-- Claim C7 (overlay idempotence): the first filterCities call for a code
not yet cached, when its fetch succeeds, performs exactly one fetch and
stores the full array under the code; a later call with the same code
performs no fetch, leaves the cache unchanged and renders from the cached
array - one fetch in total across both calls. -/
theorem C7_overlay_idempotent (cnet : CNet) (st : UIState) (sid sid2 : Int)
    (code : String) (data : List City)
    (h0 : assocLookup st.citiesCache code = none)
    (h1 : cnet (cityUrl code) = Fetched.ok data) :
    (filterCities cnet st sid code).out = CitiesOut.rendered ∧
    (filterCities cnet st sid code).evs = [Ev.fetch (cityUrl code)] ∧
    assocLookup (filterCities cnet st sid code).st.citiesCache code = some data ∧
    (filterCities cnet (filterCities cnet st sid code).st sid2 code).evs = [] ∧
    (filterCities cnet (filterCities cnet st sid code).st sid2 code).st.citiesCache =
      (filterCities cnet st sid code).st.citiesCache ∧
    (filterCities cnet (filterCities cnet st sid code).st sid2 code).st.citiesView =
      renderCitiesView (data.filter (fun c => c.state_id = sid2)) ∧
    countFetch ((filterCities cnet st sid code).evs ++
      (filterCities cnet (filterCities cnet st sid code).st sid2 code).evs) = 1 := by
  have hl : assocLookup (st.citiesCache ++ [(code, data)]) code = some data := by
    rw [assocLookup_append_of_none _ _ _ h0]
    simp [assocLookup]
  refine ⟨?_, ?_, ?_, ?_, ?_, ?_, ?_⟩ <;>
    simp [filterCities, h0, h1, hl, countFetch, isFetch, List.filter]

/-- Witness for C7: the idempotence theorem on the Scenario C oracle,
starting from the empty cache. -/
theorem C7_overlay_witness :
    (filterCities cnetIN uiInit 100 "IN").out = CitiesOut.rendered ∧
    (filterCities cnetIN uiInit 100 "IN").evs = [Ev.fetch (cityUrl "IN")] ∧
    (filterCities cnetIN (filterCities cnetIN uiInit 100 "IN").st 200 "IN").evs = [] :=
  ⟨(C7_overlay_idempotent cnetIN uiInit 100 200 "IN" [mumbai, pune] rfl (by decide)).1,
   (C7_overlay_idempotent cnetIN uiInit 100 200 "IN" [mumbai, pune] rfl (by decide)).2.1,
   (C7_overlay_idempotent cnetIN uiInit 100 200 "IN" [mumbai, pune] rfl (by decide)).2.2.2.1⟩

/-- Claim C8: a failed city fetch (non-success status or unparseable body)
makes filterCities fail with the FetchFailed outcome, show the inline error
row in place of results, and leave the code absent from the overlay cache
(the whole cache is unchanged); a later call with the same code retries the
fetch. -/
theorem C8_city_fetch_fail (cnet : CNet) (st : UIState) (sid sid2 : Int)
    (code : String)
    (h0 : assocLookup st.citiesCache code = none)
    (h1 : (∃ status, cnet (cityUrl code) = Fetched.notOk status) ∨
          cnet (cityUrl code) = Fetched.okUnparseable) :
    (∃ msg, (filterCities cnet st sid code).out = CitiesOut.fetchFailed msg) ∧
    (filterCities cnet st sid code).st.citiesView = ColumnView.errorInline ∧
    (filterCities cnet st sid code).st.citiesCache = st.citiesCache ∧
    assocLookup (filterCities cnet st sid code).st.citiesCache code = none ∧
    (filterCities cnet (filterCities cnet st sid code).st sid2 code).evs =
      [Ev.fetch (cityUrl code)] := by
  rcases h1 with ⟨status, hs⟩ | hs
  · refine ⟨⟨fetchFailMsg "cities" status, ?_⟩, ?_, ?_, ?_, ?_⟩ <;>
      simp [filterCities, h0, hs]
  · refine ⟨⟨parseErrMsg, ?_⟩, ?_, ?_, ?_, ?_⟩ <;>
      simp [filterCities, h0, hs]

/-- Witness for C8: the failure theorem on the all-500 city oracle. -/
theorem C8_city_fetch_fail_witness :
    (∃ msg, (filterCities cnet500 uiInit 100 "IN").out = CitiesOut.fetchFailed msg) ∧
    (filterCities cnet500 uiInit 100 "IN").st.citiesView = ColumnView.errorInline ∧
    assocLookup (filterCities cnet500 uiInit 100 "IN").st.citiesCache "IN" = none :=
  ⟨(C8_city_fetch_fail cnet500 uiInit 100 100 "IN" rfl (Or.inl ⟨500, rfl⟩)).1,
   (C8_city_fetch_fail cnet500 uiInit 100 100 "IN" rfl (Or.inl ⟨500, rfl⟩)).2.1,
   (C8_city_fetch_fail cnet500 uiInit 100 100 "IN" rfl (Or.inl ⟨500, rfl⟩)).2.2.2.1⟩

/-- Claim C9: with a code's array present in the overlay, filterCities
performs no fetch and renders exactly the cached records whose state_id
equals the requested state id; on the Scenario C array for IN, the call for
state 100 renders only the Mumbai record. -/
theorem C9_city_filter (cnet : CNet) (st : UIState) (sid : Int) (code : String)
    (arr : List City)
    (h : assocLookup st.citiesCache code = some arr) :
    (filterCities cnet st sid code).evs = [] ∧
    (filterCities cnet st sid code).st.citiesView =
      renderCitiesView (arr.filter (fun c => c.state_id = sid)) ∧
    (filterCities cnet500 uiCachedIN 100 "IN").st.citiesView =
      ColumnView.rows [mumbai] := by
  refine ⟨?_, ?_, ?_⟩
  · simp [filterCities, h]
  · simp [filterCities, h]
  · decide

/-- Witness for C9: the filter theorem on the cached Scenario C array. -/
theorem C9_city_filter_witness :
    (filterCities cnet500 uiCachedIN 100 "IN").evs = [] ∧
    (filterCities cnet500 uiCachedIN 100 "IN").st.citiesView =
      renderCitiesView ([mumbai, pune].filter (fun c => c.state_id = 100)) :=
  ⟨(C9_city_filter cnet500 uiCachedIN 100 "IN" [mumbai, pune] (by decide)).1,
   (C9_city_filter cnet500 uiCachedIN 100 "IN" [mumbai, pune] (by decide)).2.1⟩

/-- Claim C10: a string-typed argument makes filterSubregions set the query
string to reset=true without querying the store or touching any column; on
the reload initializeData sees reset equal true, deletes the database and
returns before opening or seeding (its only event is the deletion). -/
theorem C10_string_reset (s : String) (db db2 : DBState) (st : UIState) (net : Net) :
    (filterSubregions db st (JSArg.str s)).2 = [] ∧
    (filterSubregions db st (JSArg.str s)).1 =
      { st with locationSearch := "reset=true" } ∧
    (initializeData net "?reset=true" db2).out = InitOut.resetReload ∧
    (initializeData net "?reset=true" db2).evs = [Ev.deleteDB] ∧
    (initializeData net "?reset=true" db2).db = emptyDB := by
  refine ⟨rfl, rfl, ?_, ?_, ?_⟩ <;>
    (unfold initializeData; rw [if_pos (by decide)])

end CscDemo
